import Mathlib

/-!
Verification of the Verilog IR renderer (`src/verilog_ir.rs`).

The embedding mirrors the Rust source: `VModule`, `VPort`, `VPortLoc`,
`VConn` are the IR data types; `resolveConn`/`resolve` model the
connection-classification loop that builds the wire list, the
port-to-wire `IndexMap` and the assignment list; `generate_module_decl`
models the emitter, producing the sequence of chunks written to the
output sink (one chunk per `genln!` invocation, byte-faithful) together
with an `Outcome` recording whether the call completed normally or
aborted in a Rust `panic!`/`expect` (modelled structurally by
`AbortInfo`).  `IndexMap` is modelled as an insertion-ordered
association list with `imInsert` (replace value in place on an existing
key, append otherwise) and `imLookup`.
-/

namespace VerilogIR

/-- Port direction, from `Polarity` in the source. -/
inductive Polarity
  | Input
  | Output
deriving DecidableEq

/-- One interface port: direction and bit width, from `VPort`. -/
structure VPort where
  polarity : Polarity
  bits : Nat
deriving DecidableEq

/-- Location of a port: `mod_name = none` means the enclosing module's own
interface, `some id` the port on internal instance `id`.  From `VPortLoc`. -/
structure VPortLoc where
  mod_name : Option String
  port_name : String
deriving DecidableEq

/-- Directed connection between two port locations, from `VConn`. -/
structure VConn where
  src : VPortLoc
  dst : VPortLoc
  bits : Nat
deriving DecidableEq

/-- Module tree, from `VModule`: `External` is a black-box leaf, `Internal`
a composite with ordered interface, ordered instances and connections. -/
inductive VModule
  | External (name : String) (param : Nat) (interfaces : List (String × VPort))
  | Internal (name : String) (interfaces : List (String × VPort))
      (internals : List (String × VModule)) (connections : List VConn)

/-- Name accessor, from `VModule::get_name`. -/
def VModule.get_name : VModule → String
  | VModule.External name _ _ => name
  | VModule.Internal name _ _ _ => name

/-- Interface accessor, from `VModule::get_interfaces`. -/
def VModule.get_interfaces : VModule → List (String × VPort)
  | VModule.External _ _ interfaces => interfaces
  | VModule.Internal _ interfaces _ _ => interfaces

/-- Insertion-ordered map insert, modelling `IndexMap::insert`: an existing
key keeps its position and gets the new value, a new key is appended. -/
def imInsert {α β : Type} [DecidableEq α] (k : α) (v : β) :
    List (α × β) → List (α × β)
  | [] => [(k, v)]
  | (k', v') :: rest =>
      if k = k' then (k, v) :: rest else (k', v') :: imInsert k v rest

/-- Insertion-ordered map lookup, modelling `IndexMap::get`. -/
def imLookup {α β : Type} [DecidableEq α] (k : α) : List (α × β) → Option β
  | [] => none
  | (k', v) :: rest => if k = k' then some v else imLookup k rest

/-- Why a render call aborts: the `panic!` on an `External` module, or the
`expect` failure on a port location missing from the port-to-wire map.
The `portNotFound` payload carries the offending location, as the Rust
message `The port loc ... is not found` does. -/
inductive AbortInfo
  | invalidUsage
  | portNotFound (loc : VPortLoc)
deriving DecidableEq

/-- Result of a render call: normal completion, or a fatal abort. -/
inductive Outcome
  | normal
  | fatal (info : AbortInfo)
deriving DecidableEq

/-- The three artifacts built by the connection loop in
`generate_module_decl`: the `wires` vector, the `port_to_wire` map and
the `assigns` vector (pairs stored as `(assignee, assigned)`). -/
structure ResolveState where
  wires : List (String × Nat)
  port_to_wire : List (VPortLoc × (String × Nat))
  assigns : List (String × String)
deriving DecidableEq

/-- One step of the connection loop, from the four-way `match` on
`(src.mod_name, dst.mod_name)` in `generate_module_decl`.  Note that in
the instance-to-instance arm the source-side wire name is pushed twice
onto `wires`, exactly as in the source. -/
def resolveConn (st : ResolveState) (c : VConn) : ResolveState :=
  match c.src.mod_name, c.dst.mod_name with
  | none, none =>
      { st with assigns := st.assigns ++ [(c.dst.port_name, c.src.port_name)] }
  | some mod_name, none =>
      let wire_name := mod_name ++ "_" ++ c.src.port_name
      { wires := st.wires ++ [(wire_name, c.bits)]
        port_to_wire := imInsert c.src (wire_name, c.bits) st.port_to_wire
        assigns := st.assigns ++ [(c.dst.port_name, wire_name)] }
  | none, some mod_name =>
      let wire_name := mod_name ++ "_" ++ c.dst.port_name
      { wires := st.wires ++ [(wire_name, c.bits)]
        port_to_wire := imInsert c.dst (wire_name, c.bits) st.port_to_wire
        assigns := st.assigns ++ [(wire_name, c.src.port_name)] }
  | some src_mod_name, some dst_mod_name =>
      let src_wire_name := src_mod_name ++ "_" ++ c.src.port_name
      let dst_wire_name := dst_mod_name ++ "_" ++ c.dst.port_name
      { wires := st.wires ++ [(src_wire_name, c.bits), (src_wire_name, c.bits)]
        port_to_wire :=
          imInsert c.dst (dst_wire_name, c.bits)
            (imInsert c.src (src_wire_name, c.bits) st.port_to_wire)
        assigns := st.assigns ++ [(dst_wire_name, src_wire_name)] }

/-- The whole connection loop, folding `resolveConn` over the connection
list starting from empty artifacts. -/
def resolve (connections : List VConn) : ResolveState :=
  connections.foldl resolveConn { wires := [], port_to_wire := [], assigns := [] }

/-- Indentation prefix written by the `gen!` macro: `n` space characters. -/
def spaces (n : Nat) : String := String.mk (List.replicate n ' ')

/-- One `genln!` invocation at indentation `tab`: the bytes written are the
indent, the formatted text and a newline. -/
def genlnStr (tab : Nat) (s : String) : String := spaces tab ++ s ++ "\n"

/-- Bit-range suffix: `[bits-1:0]` when `bits > 1`, empty otherwise
(the `bitwidth` computation in the source). -/
def bitwidthStr (bits : Nat) : String :=
  if bits > 1 then "[" ++ toString (bits - 1) ++ ":0]" else ""

/-- Direction keyword chosen by the `polarity == Input` test. -/
def dirStr (p : Polarity) : String :=
  if p = Polarity.Input then ("input") else ("output")

/-- The three header chunks: `module NAME (`, the comma-joined port names at
one indent level, then `);`. -/
def headerChunks (name : String) (interfaces : List (String × VPort)) : List String :=
  [genlnStr 0 ("module " ++ name ++ " ("),
   genlnStr 4 (String.intercalate (", ") (interfaces.map Prod.fst)),
   genlnStr 0 (");")]

/-- One port-declaration line: `genln!(defs, "{} {} {};", io, bitwidth, name)`. -/
def portDeclChunk (x : String × VPort) : String :=
  genlnStr 4 (dirStr x.2.polarity ++ " " ++ bitwidthStr x.2.bits ++ " " ++ x.1 ++ ";")

/-- One wire-declaration line: `genln!(defs, "wire {} {};", bitwidth, wire_name)`. -/
def wireDeclChunk (w : String × Nat) : String :=
  genlnStr 4 ("wire " ++ bitwidthStr w.2 ++ " " ++ w.1 ++ ";")

/-- One assignment line: `genln!(defs, "assign {} = {};", src, dst)` where the
pair was stored as `(assignee, assigned)`. -/
def assignChunk (a : String × String) : String :=
  genlnStr 4 ("assign " ++ a.1 ++ " = " ++ a.2 ++ ";")

/-- One instance line: `genln!(defs, "{} {} ({}));\n", mod_name, name, args)`.
The format string itself ends in `));` plus an embedded newline, so the
chunk ends in two newlines, as in the source. -/
def instLineChunk (mod_name inst_name : String) (args : List String) : String :=
  genlnStr 4 (mod_name ++ " " ++ inst_name ++ " (" ++ String.intercalate (", ") args ++ "));\n")

/-- Wire arguments for one instance, in the instance's own interface order:
each port is looked up in the port-to-wire map, and a missing entry is the
`expect` failure carrying the offending location.  The lookup failures fire
while the argument list is being collected, before the line is written. -/
def instArgs (port_to_wire : List (VPortLoc × (String × Nat))) (inst_name : String) :
    List (String × VPort) → Except VPortLoc (List String)
  | [] => Except.ok []
  | (port_name, _) :: rest =>
      match imLookup (VPortLoc.mk (some inst_name) port_name) port_to_wire with
      | none => Except.error (VPortLoc.mk (some inst_name) port_name)
      | some wb =>
          match instArgs port_to_wire inst_name rest with
          | Except.error e => Except.error e
          | Except.ok ws => Except.ok (wb.1 :: ws)

/-- The instance-instantiation loop: for each instance in declaration order,
compute its argument wires (aborting on a missing map entry, with lines of
earlier instances already written) and emit one instance line. -/
def emitInsts (port_to_wire : List (VPortLoc × (String × Nat))) :
    List (String × VModule) → List String × Outcome
  | [] => ([], Outcome.normal)
  | (name, sub) :: rest =>
      match instArgs port_to_wire name sub.get_interfaces with
      | Except.error loc => ([], Outcome.fatal (AbortInfo.portNotFound loc))
      | Except.ok args =>
          let r := emitInsts port_to_wire rest
          (instLineChunk sub.get_name name args :: r.1, r.2)

/-- The renderer `generate_module_decl`: an `External` module hits the
`panic!` before anything is written; an `Internal` module emits header,
port declarations, wire declarations, assignments, instance lines and
`endmodule`, in that order.  The first component is the sequence of chunks
written to the sink before completion or abort. -/
def generate_module_decl : VModule → List String × Outcome
  | VModule.External _ _ _ => ([], Outcome.fatal AbortInfo.invalidUsage)
  | VModule.Internal name interfaces internals connections =>
      let r := resolve connections
      let pre := headerChunks name interfaces ++ interfaces.map portDeclChunk
        ++ r.wires.map wireDeclChunk ++ r.assigns.map assignChunk
      let insts := emitInsts r.port_to_wire internals
      match insts.2 with
      | Outcome.normal => (pre ++ insts.1 ++ [genlnStr 0 ("endmodule")], Outcome.normal)
      | Outcome.fatal i => (pre ++ insts.1, Outcome.fatal i)

/-- Rendering into a caller-supplied sink holding some already-written
chunks: every write appends, so the call extends the sink with the chunks
of `generate_module_decl`. -/
def renderInto (sink : List String) (vmod : VModule) : List String × Outcome :=
  ((sink ++ (generate_module_decl vmod).1), (generate_module_decl vmod).2)

/-- Bytes carried by a chunk sequence. -/
def outputBytes (chunks : List String) : String := String.join chunks

/-- Instance lines reassembled from the instance list and a matching list of
argument vectors: used to state that the instance-line skeleton (module
type and instance name, in declaration order) is fixed by the instance map
alone. -/
def instSkeleton (internals : List (String × VModule)) (argss : List (List String)) :
    List String :=
  List.zipWith (fun x args => instLineChunk x.2.get_name x.1 args) internals argss

/-- Looking up the key just inserted returns the inserted value. -/
theorem lookup_imInsert {α β : Type} [DecidableEq α] (k : α) (v : β) (l : List (α × β)) :
    imLookup k (imInsert k v l) = some v := by
  induction l with
  | nil => simp [imInsert, imLookup]
  | cons hd tl ih =>
      obtain ⟨k', v'⟩ := hd
      by_cases h : k = k'
      · simp [imInsert, h, imLookup]
      · simp [imInsert, h, imLookup, ih]

/-- Key membership after an `imInsert`. -/
theorem mem_keys_imInsert {α β : Type} [DecidableEq α] (a k : α) (v : β) (l : List (α × β)) :
    a ∈ (imInsert k v l).map Prod.fst ↔ a = k ∨ a ∈ l.map Prod.fst := by
  induction l with
  | nil => simp [imInsert]
  | cons hd tl ih =>
      obtain ⟨k', v'⟩ := hd
      by_cases h : k = k'
      · subst h
        simp [imInsert]
      · simp only [imInsert, if_neg h, List.map_cons, List.mem_cons, ih]
        tauto

/-- Inserting into a map with no duplicate keys keeps the keys duplicate-free:
`imInsert` replaces the value of an existing key rather than adding an entry. -/
theorem nodup_keys_imInsert {α β : Type} [DecidableEq α] (k : α) (v : β) (l : List (α × β))
    (h : (l.map Prod.fst).Nodup) : ((imInsert k v l).map Prod.fst).Nodup := by
  induction l with
  | nil => simp [imInsert]
  | cons hd tl ih =>
      obtain ⟨k', v'⟩ := hd
      simp only [List.map_cons, List.nodup_cons] at h
      by_cases hk : k = k'
      · subst hk
        simpa [imInsert] using h
      · simp only [imInsert, if_neg hk, List.map_cons, List.nodup_cons]
        refine ⟨?_, ih h.2⟩
        rw [mem_keys_imInsert]
        rintro (rfl | hm)
        · exact hk rfl
        · exact h.1 hm

/-- Looking up a key other than the one just inserted is unchanged. -/
theorem imLookup_imInsert_ne {α β : Type} [DecidableEq α] (k k' : α) (v : β)
    (l : List (α × β)) (h : k ≠ k') : imLookup k (imInsert k' v l) = imLookup k l := by
  induction l with
  | nil => simp [imInsert, imLookup, h]
  | cons hd tl ih =>
      obtain ⟨a, b⟩ := hd
      by_cases ha : k' = a
      · subst ha
        simp [imInsert, imLookup, h]
      · simp [imInsert, imLookup, ha, ih]

/-- A resolver step for a connection whose instance-qualified endpoint
`(m, p)` sits on one side and an interface endpoint on the other (either
orientation): it pushes exactly one wire carrying the derived name
`{m}_{p}` and the connection's bits, and maps the endpoint to that wire. -/
theorem resolveConn_touches (st : ResolveState) (c : VConn) (m p : String)
    (hc : (c.src = VPortLoc.mk (some m) p ∧ c.dst.mod_name = none)
        ∨ (c.dst = VPortLoc.mk (some m) p ∧ c.src.mod_name = none)) :
    (resolveConn st c).wires = st.wires ++ [((m ++ "_" ++ p), c.bits)]
    ∧ imLookup (VPortLoc.mk (some m) p) (resolveConn st c).port_to_wire
        = some ((m ++ "_" ++ p), c.bits) := by
  rcases hc with ⟨h1, h2⟩ | ⟨h1, h2⟩
  · have hs : c.src.mod_name = some m := by rw [h1]
    have hp : c.src.port_name = p := by rw [h1]
    constructor
    · simp [resolveConn, hs, h2, hp]
    · simp [resolveConn, hs, h2, hp, h1, lookup_imInsert]
  · have hdm : c.dst.mod_name = some m := by rw [h1]
    have hp : c.dst.port_name = p := by rw [h1]
    constructor
    · simp [resolveConn, h2, hdm, hp]
    · simp [resolveConn, h2, hdm, hp, h1, lookup_imInsert]

/-- A resolver step for a connection touching neither side of `loc` leaves
the map entry of `loc` unchanged. -/
theorem resolveConn_lookup_other (st : ResolveState) (d : VConn) (loc : VPortLoc)
    (h1 : d.src ≠ loc) (h2 : d.dst ≠ loc) :
    imLookup loc (resolveConn st d).port_to_wire = imLookup loc st.port_to_wire := by
  rcases hs : d.src.mod_name with _ | ms
  · rcases hd : d.dst.mod_name with _ | md
    · simp [resolveConn, hs, hd]
    · simp only [resolveConn, hs, hd]
      exact imLookup_imInsert_ne loc d.dst _ _ (Ne.symm h2)
  · rcases hd : d.dst.mod_name with _ | md
    · simp only [resolveConn, hs, hd]
      exact imLookup_imInsert_ne loc d.src _ _ (Ne.symm h1)
    · simp only [resolveConn, hs, hd]
      rw [imLookup_imInsert_ne loc d.dst _ _ (Ne.symm h2),
        imLookup_imInsert_ne loc d.src _ _ (Ne.symm h1)]

/-- Folding the resolver over connections that never mention `loc` on either
side leaves `loc`'s map entry unchanged. -/
theorem foldl_resolveConn_lookup_other (l : List VConn) (loc : VPortLoc) :
    ∀ st : ResolveState, (∀ d ∈ l, d.src ≠ loc ∧ d.dst ≠ loc) →
      imLookup loc (l.foldl resolveConn st).port_to_wire
        = imLookup loc st.port_to_wire := by
  induction l with
  | nil =>
      intro st h
      rfl
  | cons d t ih =>
      intro st h
      simp only [List.foldl_cons]
      rw [ih (resolveConn st d) (fun e he => h e (List.mem_cons_of_mem d he)),
        resolveConn_lookup_other st d loc (h d (List.mem_cons_self d t)).1
          (h d (List.mem_cons_self d t)).2]

/-- Every resolver step only appends to the wire list. -/
theorem resolveConn_wires_extend (st : ResolveState) (c : VConn) :
    ∃ new, (resolveConn st c).wires = st.wires ++ new := by
  rcases hs : c.src.mod_name with _ | ms
  · rcases hd : c.dst.mod_name with _ | md
    · exact ⟨[], by simp [resolveConn, hs, hd]⟩
    · exact ⟨[((md ++ "_" ++ c.dst.port_name), c.bits)], by simp [resolveConn, hs, hd]⟩
  · rcases hd : c.dst.mod_name with _ | md
    · exact ⟨[((ms ++ "_" ++ c.src.port_name), c.bits)], by simp [resolveConn, hs, hd]⟩
    · exact ⟨[((ms ++ "_" ++ c.src.port_name), c.bits),
        ((ms ++ "_" ++ c.src.port_name), c.bits)], by simp [resolveConn, hs, hd]⟩

/-- Folding the resolver over any connection list only appends wires. -/
theorem foldl_resolveConn_wires_extend (l : List VConn) :
    ∀ st : ResolveState, ∃ new, (l.foldl resolveConn st).wires = st.wires ++ new := by
  induction l with
  | nil =>
      intro st
      exact ⟨[], by simp⟩
  | cons d t ih =>
      intro st
      obtain ⟨n1, h1⟩ := resolveConn_wires_extend st d
      obtain ⟨n2, h2⟩ := ih (resolveConn st d)
      refine ⟨n1 ++ n2, ?_⟩
      simp only [List.foldl_cons]
      rw [h2, h1, List.append_assoc]

/-- Every resolver step keeps the port-to-wire keys duplicate-free. -/
theorem resolveConn_keys_nodup (st : ResolveState) (c : VConn)
    (h : (st.port_to_wire.map Prod.fst).Nodup) :
    ((resolveConn st c).port_to_wire.map Prod.fst).Nodup := by
  rcases hs : c.src.mod_name with _ | ms
  · rcases hd : c.dst.mod_name with _ | md
    · simpa [resolveConn, hs, hd] using h
    · simp only [resolveConn, hs, hd]
      exact nodup_keys_imInsert _ _ _ h
  · rcases hd : c.dst.mod_name with _ | md
    · simp only [resolveConn, hs, hd]
      exact nodup_keys_imInsert _ _ _ h
    · simp only [resolveConn, hs, hd]
      exact nodup_keys_imInsert _ _ _ (nodup_keys_imInsert _ _ _ h)

/-- Folding the resolver preserves duplicate-free port-to-wire keys. -/
theorem foldl_resolveConn_keys_nodup (l : List VConn) :
    ∀ st : ResolveState, (st.port_to_wire.map Prod.fst).Nodup →
      ((l.foldl resolveConn st).port_to_wire.map Prod.fst).Nodup := by
  induction l with
  | nil =>
      intro st h
      exact h
  | cons d t ih =>
      intro st h
      simp only [List.foldl_cons]
      exact ih _ (resolveConn_keys_nodup st d h)

/-- When collecting the argument wires of one instance fails, the failure
carries an instance-qualified location that is absent from the map. -/
theorem instArgs_error (ptw : List (VPortLoc × (String × Nat))) (n : String)
    (ports : List (String × VPort)) (loc : VPortLoc)
    (h : instArgs ptw n ports = Except.error loc) :
    loc.mod_name = some n ∧ imLookup loc ptw = none := by
  induction ports with
  | nil => simp [instArgs] at h
  | cons hd tl ih =>
      obtain ⟨pn, pv⟩ := hd
      rw [instArgs] at h
      cases hl : imLookup (VPortLoc.mk (some n) pn) ptw with
      | none =>
          rw [hl] at h
          simp only [Except.error.injEq] at h
          cases h
          exact ⟨rfl, hl⟩
      | some wb =>
          rw [hl] at h
          cases hr : instArgs ptw n tl with
          | error e =>
              rw [hr] at h
              simp only [Except.error.injEq] at h
              cases h
              exact ih hr
          | ok ws =>
              rw [hr] at h
              simp at h

/-- The instance loop either completes normally or aborts on a port location
that is instance-qualified and missing from the port-to-wire map. -/
theorem emitInsts_outcome (ptw : List (VPortLoc × (String × Nat)))
    (l : List (String × VModule)) :
    (emitInsts ptw l).2 = Outcome.normal
      ∨ ∃ loc, (emitInsts ptw l).2 = Outcome.fatal (AbortInfo.portNotFound loc)
          ∧ loc.mod_name.isSome = true ∧ imLookup loc ptw = none := by
  induction l with
  | nil => left; rfl
  | cons hd tl ih =>
      obtain ⟨n, sub⟩ := hd
      cases ha : instArgs ptw n sub.get_interfaces with
      | error loc =>
          right
          obtain ⟨h1, h2⟩ := instArgs_error ptw n _ loc ha
          exact ⟨loc, by simp [emitInsts, ha], by simp [h1], h2⟩
      | ok args =>
          rcases ih with hn | ⟨loc, hf, hs, hl⟩
          · left; simp [emitInsts, ha, hn]
          · right; exact ⟨loc, by simp [emitInsts, ha, hf], hs, hl⟩

/-- When the instance loop completes normally, the chunks it wrote are exactly
one instance line per instance, in declaration order, each carrying the
instance's module type, the instance name and some argument list. -/
theorem emitInsts_normal (ptw : List (VPortLoc × (String × Nat)))
    (l : List (String × VModule)) (h : (emitInsts ptw l).2 = Outcome.normal) :
    ∃ argss, argss.length = l.length ∧ (emitInsts ptw l).1 = instSkeleton l argss := by
  induction l with
  | nil => exact ⟨[], rfl, rfl⟩
  | cons hd tl ih =>
      obtain ⟨n, sub⟩ := hd
      cases ha : instArgs ptw n sub.get_interfaces with
      | error loc =>
          simp [emitInsts, ha] at h
      | ok args =>
          have h2 : (emitInsts ptw tl).2 = Outcome.normal := by
            simpa [emitInsts, ha] using h
          obtain ⟨argss, hlen, hsh⟩ := ih h2
          refine ⟨args :: argss, by simp [hlen], ?_⟩
          simp [emitInsts, ha, instSkeleton, hsh]

/-- C1: evaluation of the instance-to-instance case at the connection
`src = (m1, p)`, `dst = (m2, q)`, `bits = 1`.  The port-to-wire map records
both endpoints with their respective wires and exactly one assignment
`assign m2_q = m1_p` is produced, but the wire-declaration list receives the
source-side wire name `m1_p` twice and never the destination-side wire
`m2_q`, contradicting the claimed pair of distinctly named wires; in
particular no `wire m2_q;` declaration is ever emitted. -/
theorem c1_instance_to_instance_eval :
    (resolve [VConn.mk (VPortLoc.mk (some ("m1")) ("p")) (VPortLoc.mk (some ("m2")) ("q")) 1]).wires
        = [(("m1_p"), 1), (("m1_p"), 1)]
    ∧ (resolve [VConn.mk (VPortLoc.mk (some ("m1")) ("p")) (VPortLoc.mk (some ("m2")) ("q")) 1]).wires
        ≠ [(("m1_p"), 1), (("m2_q"), 1)]
    ∧ imLookup (VPortLoc.mk (some ("m1")) ("p"))
        (resolve [VConn.mk (VPortLoc.mk (some ("m1")) ("p")) (VPortLoc.mk (some ("m2")) ("q")) 1]).port_to_wire
        = some (("m1_p"), 1)
    ∧ imLookup (VPortLoc.mk (some ("m2")) ("q"))
        (resolve [VConn.mk (VPortLoc.mk (some ("m1")) ("p")) (VPortLoc.mk (some ("m2")) ("q")) 1]).port_to_wire
        = some (("m2_q"), 1)
    ∧ (resolve [VConn.mk (VPortLoc.mk (some ("m1")) ("p")) (VPortLoc.mk (some ("m2")) ("q")) 1]).assigns
        = [(("m2_q"), ("m1_p"))]
    ∧ wireDeclChunk (("m2_q"), 1)
        ∉ (resolve [VConn.mk (VPortLoc.mk (some ("m1")) ("p")) (VPortLoc.mk (some ("m2")) ("q")) 1]).wires.map wireDeclChunk := by
  decide

/-- C2: evaluation of the emitter on a module `top` with one instance `E` of
external module `ext` (single port `a`) wired from interface port `x`.  The
rendering completes normally and the instance line written is
`    ext E (E_a));` followed by an extra empty line — an extra closing
parenthesis and an extra newline — not the claimed exact form
`TYPE_NAME INSTANCE_NAME ( wire, wire, ... );`. -/
theorem c2_instance_line_eval :
    (generate_module_decl (VModule.Internal ("top")
        [(("x"), VPort.mk Polarity.Input 1), (("y"), VPort.mk Polarity.Output 1)]
        [(("E"), VModule.External ("ext") 1 [(("a"), VPort.mk Polarity.Input 1)])]
        [VConn.mk (VPortLoc.mk none ("x")) (VPortLoc.mk (some ("E")) ("a")) 1])).2
      = Outcome.normal
    ∧ (generate_module_decl (VModule.Internal ("top")
        [(("x"), VPort.mk Polarity.Input 1), (("y"), VPort.mk Polarity.Output 1)]
        [(("E"), VModule.External ("ext") 1 [(("a"), VPort.mk Polarity.Input 1)])]
        [VConn.mk (VPortLoc.mk none ("x")) (VPortLoc.mk (some ("E")) ("a")) 1])).1
      = [("module top (\n"), ("    x, y\n"), (");\n"),
         ("    input  x;\n"), ("    output  y;\n"),
         ("    wire  E_a;\n"), ("    assign E_a = x;\n"),
         ("    ext E (E_a));\n\n"), ("endmodule\n")]
    ∧ ("    ext E ( E_a );\n")
        ∉ (generate_module_decl (VModule.Internal ("top")
            [(("x"), VPort.mk Polarity.Input 1), (("y"), VPort.mk Polarity.Output 1)]
            [(("E"), VModule.External ("ext") 1 [(("a"), VPort.mk Polarity.Input 1)])]
            [VConn.mk (VPortLoc.mk none ("x")) (VPortLoc.mk (some ("E")) ("a")) 1])).1
    ∧ ("    ext E (E_a);\n")
        ∉ (generate_module_decl (VModule.Internal ("top")
            [(("x"), VPort.mk Polarity.Input 1), (("y"), VPort.mk Polarity.Output 1)]
            [(("E"), VModule.External ("ext") 1 [(("a"), VPort.mk Polarity.Input 1)])]
            [VConn.mk (VPortLoc.mk none ("x")) (VPortLoc.mk (some ("E")) ("a")) 1])).1 := by
  decide

/-- C3 counterexample: rendering the concrete `External` module `m` does not
complete normally — the call aborts in the `panic!`, so errors are not
returned to the caller as a result value. -/
theorem c3_counterexample :
    (generate_module_decl (VModule.External ("m") 0 [])).2 ≠ Outcome.normal := by
  decide

/-- C3 (amended): rendering either completes normally, or aborts fatally.
The invalid-usage abort happens exactly on `External` modules and carries no
further context; the unresolved-port abort carries the offending port
location, which is always instance-qualified and absent from the
port-to-wire map built from the module's connections.  No error is returned
to the caller as a value. -/
theorem c3_errors_abort_fatally (vmod : VModule) :
    (generate_module_decl vmod).2 = Outcome.normal
    ∨ ((generate_module_decl vmod).2 = Outcome.fatal AbortInfo.invalidUsage
        ∧ ∃ name param interfaces, vmod = VModule.External name param interfaces)
    ∨ (∃ loc name interfaces internals connections,
        (generate_module_decl vmod).2 = Outcome.fatal (AbortInfo.portNotFound loc)
        ∧ vmod = VModule.Internal name interfaces internals connections
        ∧ loc.mod_name.isSome = true
        ∧ imLookup loc (resolve connections).port_to_wire = none) := by
  cases vmod with
  | External name param interfaces =>
      right; left
      exact ⟨rfl, name, param, interfaces, rfl⟩
  | Internal name interfaces internals connections =>
      rcases emitInsts_outcome (resolve connections).port_to_wire internals with hn | ⟨loc, hf, hs, hl⟩
      · left
        simp [generate_module_decl, hn]
      · right; right
        exact ⟨loc, name, interfaces, internals, connections,
          by simp [generate_module_decl, hf], rfl, hs, hl⟩

/-- C4: rendering any `External` module aborts (it never completes normally)
and writes nothing to the caller-provided sink: the sink is left exactly as
it was and the chunk list of the call carries zero bytes. -/
theorem c4_external_rejection (name : String) (param : Nat)
    (interfaces : List (String × VPort)) (sink : List String) :
    (renderInto sink (VModule.External name param interfaces)).2 ≠ Outcome.normal
    ∧ (renderInto sink (VModule.External name param interfaces)).1 = sink
    ∧ outputBytes (generate_module_decl (VModule.External name param interfaces)).1 = ("") := by
  refine ⟨?_, ?_, rfl⟩
  · simp [renderInto, generate_module_decl]
  · simp [renderInto, generate_module_decl]

/-- C5: rendering is deterministic — rendering the same module tree into two
fresh (or arbitrary) sinks appends the same chunk sequence to both, yields
the same outcome, and the bytes written beyond each sink's prior contents
are identical. -/
theorem c5_deterministic (vmod : VModule) (sink1 sink2 : List String) :
    ∃ out, (renderInto sink1 vmod).1 = sink1 ++ out
      ∧ (renderInto sink2 vmod).1 = sink2 ++ out
      ∧ (renderInto sink1 vmod).2 = (renderInto sink2 vmod).2
      ∧ outputBytes ((renderInto sink1 vmod).1.drop sink1.length)
          = outputBytes ((renderInto sink2 vmod).1.drop sink2.length) := by
  refine ⟨(generate_module_decl vmod).1, rfl, rfl, rfl, ?_⟩
  simp [renderInto, List.drop_left]

/-- C6: for any two connection lists over the same name, interface and
instance maps, a normally-completing rendering consists of the header (with
the port list in interface insertion order), the per-port declaration lines
in interface insertion order, the wire and assignment lines, and one
instance line per instance in instance-map insertion order (the skeleton
`instSkeleton internals argss` fixes each line's module type and instance
name from the instance map alone), closed by `endmodule`; the port and
instance orders are therefore unaffected by any reordering of the
connections. -/
theorem c6_order_preservation (name : String) (intf : List (String × VPort))
    (internals : List (String × VModule)) (conns conns' : List VConn)
    (h : (generate_module_decl (VModule.Internal name intf internals conns)).2 = Outcome.normal)
    (h' : (generate_module_decl (VModule.Internal name intf internals conns')).2 = Outcome.normal) :
    (∃ argss, argss.length = internals.length
      ∧ (generate_module_decl (VModule.Internal name intf internals conns)).1
          = headerChunks name intf ++ intf.map portDeclChunk
            ++ (resolve conns).wires.map wireDeclChunk
            ++ (resolve conns).assigns.map assignChunk
            ++ instSkeleton internals argss ++ [genlnStr 0 ("endmodule")])
    ∧ (∃ argss, argss.length = internals.length
      ∧ (generate_module_decl (VModule.Internal name intf internals conns')).1
          = headerChunks name intf ++ intf.map portDeclChunk
            ++ (resolve conns').wires.map wireDeclChunk
            ++ (resolve conns').assigns.map assignChunk
            ++ instSkeleton internals argss ++ [genlnStr 0 ("endmodule")]) := by
  have key : ∀ cs : List VConn,
      (generate_module_decl (VModule.Internal name intf internals cs)).2 = Outcome.normal →
      ∃ argss, argss.length = internals.length
        ∧ (generate_module_decl (VModule.Internal name intf internals cs)).1
            = headerChunks name intf ++ intf.map portDeclChunk
              ++ (resolve cs).wires.map wireDeclChunk
              ++ (resolve cs).assigns.map assignChunk
              ++ instSkeleton internals argss ++ [genlnStr 0 ("endmodule")] := by
    intro cs hcs
    rcases ho : (emitInsts (resolve cs).port_to_wire internals).2 with _ | i
    · obtain ⟨argss, hlen, hsh⟩ := emitInsts_normal _ _ ho
      refine ⟨argss, hlen, ?_⟩
      simp [generate_module_decl, ho, hsh, List.append_assoc]
    · simp [generate_module_decl, ho] at hcs
  exact ⟨key conns h, key conns' h'⟩

/-- C6 witness: the order theorem instantiated at a concrete module `top`
with ports `x`, `y`, one instance `E` of `ext` and one connection, for two
copies of the connection list. -/
theorem c6_order_preservation_witness :
    (∃ argss, argss.length = ([(("E"), VModule.External ("ext") 1 [(("a"), VPort.mk Polarity.Input 1)])] : List (String × VModule)).length
      ∧ (generate_module_decl (VModule.Internal ("top")
            [(("x"), VPort.mk Polarity.Input 1), (("y"), VPort.mk Polarity.Output 1)]
            [(("E"), VModule.External ("ext") 1 [(("a"), VPort.mk Polarity.Input 1)])]
            [VConn.mk (VPortLoc.mk none ("x")) (VPortLoc.mk (some ("E")) ("a")) 1])).1
          = headerChunks ("top") [(("x"), VPort.mk Polarity.Input 1), (("y"), VPort.mk Polarity.Output 1)]
            ++ [(("x"), VPort.mk Polarity.Input 1), (("y"), VPort.mk Polarity.Output 1)].map portDeclChunk
            ++ (resolve [VConn.mk (VPortLoc.mk none ("x")) (VPortLoc.mk (some ("E")) ("a")) 1]).wires.map wireDeclChunk
            ++ (resolve [VConn.mk (VPortLoc.mk none ("x")) (VPortLoc.mk (some ("E")) ("a")) 1]).assigns.map assignChunk
            ++ instSkeleton [(("E"), VModule.External ("ext") 1 [(("a"), VPort.mk Polarity.Input 1)])] argss
            ++ [genlnStr 0 ("endmodule")])
    ∧ (∃ argss, argss.length = ([(("E"), VModule.External ("ext") 1 [(("a"), VPort.mk Polarity.Input 1)])] : List (String × VModule)).length
      ∧ (generate_module_decl (VModule.Internal ("top")
            [(("x"), VPort.mk Polarity.Input 1), (("y"), VPort.mk Polarity.Output 1)]
            [(("E"), VModule.External ("ext") 1 [(("a"), VPort.mk Polarity.Input 1)])]
            [VConn.mk (VPortLoc.mk none ("x")) (VPortLoc.mk (some ("E")) ("a")) 1])).1
          = headerChunks ("top") [(("x"), VPort.mk Polarity.Input 1), (("y"), VPort.mk Polarity.Output 1)]
            ++ [(("x"), VPort.mk Polarity.Input 1), (("y"), VPort.mk Polarity.Output 1)].map portDeclChunk
            ++ (resolve [VConn.mk (VPortLoc.mk none ("x")) (VPortLoc.mk (some ("E")) ("a")) 1]).wires.map wireDeclChunk
            ++ (resolve [VConn.mk (VPortLoc.mk none ("x")) (VPortLoc.mk (some ("E")) ("a")) 1]).assigns.map assignChunk
            ++ instSkeleton [(("E"), VModule.External ("ext") 1 [(("a"), VPort.mk Polarity.Input 1)])] argss
            ++ [genlnStr 0 ("endmodule")]) :=
  c6_order_preservation ("top")
    [(("x"), VPort.mk Polarity.Input 1), (("y"), VPort.mk Polarity.Output 1)]
    [(("E"), VModule.External ("ext") 1 [(("a"), VPort.mk Polarity.Input 1)])]
    [VConn.mk (VPortLoc.mk none ("x")) (VPortLoc.mk (some ("E")) ("a")) 1]
    [VConn.mk (VPortLoc.mk none ("x")) (VPortLoc.mk (some ("E")) ("a")) 1]
    (by decide) (by decide)

/-- C7: an interface-to-interface connection adds no wire, leaves the
port-to-wire map untouched, appends exactly one assignment pair
`(destination, source)`, and the emitted statement for that pair reads
`assign destination.port_name = source.port_name;`. -/
theorem c7_interface_to_interface (st : ResolveState) (c : VConn)
    (h1 : c.src.mod_name = none) (h2 : c.dst.mod_name = none) :
    (resolveConn st c).wires = st.wires
    ∧ (resolveConn st c).port_to_wire = st.port_to_wire
    ∧ (resolveConn st c).assigns = st.assigns ++ [(c.dst.port_name, c.src.port_name)]
    ∧ assignChunk ((c.dst.port_name, c.src.port_name))
        = genlnStr 4 ("assign " ++ c.dst.port_name ++ " = " ++ c.src.port_name ++ ";") := by
  refine ⟨?_, ?_, ?_, rfl⟩ <;> simp [resolveConn, h1, h2]

/-- C7 witness: the interface-to-interface theorem instantiated at the empty
state and the connection `req → cmd_req` from the repository's test. -/
theorem c7_interface_to_interface_witness :
    (resolveConn ⟨[], [], []⟩
        (VConn.mk (VPortLoc.mk none ("req")) (VPortLoc.mk none ("cmd_req")) 1)).wires = []
    ∧ (resolveConn ⟨[], [], []⟩
        (VConn.mk (VPortLoc.mk none ("req")) (VPortLoc.mk none ("cmd_req")) 1)).port_to_wire = []
    ∧ (resolveConn ⟨[], [], []⟩
        (VConn.mk (VPortLoc.mk none ("req")) (VPortLoc.mk none ("cmd_req")) 1)).assigns
        = [] ++ [(("cmd_req"), ("req"))]
    ∧ assignChunk ((("cmd_req"), ("req")))
        = genlnStr 4 ("assign " ++ ("cmd_req") ++ " = " ++ ("req") ++ ";") :=
  c7_interface_to_interface ⟨[], [], []⟩
    (VConn.mk (VPortLoc.mk none ("req")) (VPortLoc.mk none ("cmd_req")) 1) rfl rfl

/-- C8: every wire pushed by one resolver step carries the connection's
`bits`; a width-1 wire or port declaration carries no range suffix (the
bit-range position holds the empty string) and a width greater than 1
carries the suffix `[bits-1:0]`, for wire declarations and interface port
declarations alike. -/
theorem c8_wire_width_fidelity (st : ResolveState) (c : VConn) (w n : String)
    (d : Polarity) (b1 b2 : Nat) (hb1 : b1 = 1) (hb2 : 1 < b2) :
    (∀ x ∈ (resolveConn st c).wires, x ∈ st.wires ∨ x.2 = c.bits)
    ∧ wireDeclChunk ((w, b1)) = genlnStr 4 ("wire " ++ ("") ++ " " ++ w ++ ";")
    ∧ wireDeclChunk ((w, b2))
        = genlnStr 4 ("wire " ++ ("[" ++ toString (b2 - 1) ++ ":0]") ++ " " ++ w ++ ";")
    ∧ portDeclChunk ((n, VPort.mk d b1))
        = genlnStr 4 (dirStr d ++ " " ++ ("") ++ " " ++ n ++ ";")
    ∧ portDeclChunk ((n, VPort.mk d b2))
        = genlnStr 4 (dirStr d ++ " " ++ ("[" ++ toString (b2 - 1) ++ ":0]") ++ " " ++ n ++ ";") := by
  subst hb1
  refine ⟨?_, by simp [wireDeclChunk, bitwidthStr],
    by simp [wireDeclChunk, bitwidthStr, hb2],
    by simp [portDeclChunk, bitwidthStr],
    by simp [portDeclChunk, bitwidthStr, hb2]⟩
  intro x hx
  rcases hs : c.src.mod_name with _ | ms
  · rcases hdd : c.dst.mod_name with _ | md
    · simp [resolveConn, hs, hdd] at hx
      exact Or.inl hx
    · simp [resolveConn, hs, hdd] at hx
      rcases hx with hx | rfl
      · exact Or.inl hx
      · exact Or.inr rfl
  · rcases hdd : c.dst.mod_name with _ | md
    · simp [resolveConn, hs, hdd] at hx
      rcases hx with hx | rfl
      · exact Or.inl hx
      · exact Or.inr rfl
    · simp [resolveConn, hs, hdd] at hx
      rcases hx with hx | rfl
      · exact Or.inl hx
      · exact Or.inr rfl

/-- C8 witness: the width theorem instantiated at concrete widths 1 and 8,
with the evaluated declaration lines. -/
theorem c8_wire_width_fidelity_witness :
    wireDeclChunk (("w"), 1) = ("    wire  w;\n")
    ∧ wireDeclChunk (("w"), 8) = ("    wire [7:0] w;\n")
    ∧ portDeclChunk ((("n"), VPort.mk Polarity.Input 1)) = ("    input  n;\n")
    ∧ portDeclChunk ((("n"), VPort.mk Polarity.Input 8)) = ("    input [7:0] n;\n") := by
  obtain ⟨-, h1, h2, h3, h4⟩ := c8_wire_width_fidelity ⟨[], [], []⟩
    (VConn.mk (VPortLoc.mk none ("a")) (VPortLoc.mk none ("b")) 1)
    ("w") ("n") Polarity.Input 1 8 rfl (by decide)
  exact ⟨by rw [h1]; decide, by rw [h2]; decide, by rw [h3]; decide, by rw [h4]; decide⟩

/-- C9: in any connection list, take two connections `c` and `c'` (in this
order, arbitrarily far apart) whose instance-side endpoint is the same port
location `(m, p)` — on either side: as source with an interface destination,
or as destination with an interface source — with `c'` the last connection
mentioning that endpoint.  Both derive the same wire name `{m}_{p}`: the
final wire list contains one entry per such connection, each with the same
derived name and that connection's own bits (so the same wire name is
declared once per connection in the output), while the port-to-wire map
keeps duplicate-free keys (a single entry for the endpoint) whose value
comes from the last such connection processed. -/
theorem c9_duplicate_endpoint (pre mid post : List VConn) (c c' : VConn) (m p : String)
    (hc : (c.src = VPortLoc.mk (some m) p ∧ c.dst.mod_name = none)
        ∨ (c.dst = VPortLoc.mk (some m) p ∧ c.src.mod_name = none))
    (hc' : (c'.src = VPortLoc.mk (some m) p ∧ c'.dst.mod_name = none)
        ∨ (c'.dst = VPortLoc.mk (some m) p ∧ c'.src.mod_name = none))
    (hpost : ∀ d ∈ post, d.src ≠ VPortLoc.mk (some m) p ∧ d.dst ≠ VPortLoc.mk (some m) p) :
    (∃ w1 w2 w3,
      (resolve (pre ++ c :: mid ++ c' :: post)).wires
          = w1 ++ [((m ++ "_" ++ p), c.bits)] ++ w2 ++ [((m ++ "_" ++ p), c'.bits)] ++ w3
      ∧ (resolve (pre ++ c :: mid ++ c' :: post)).wires.map wireDeclChunk
          = w1.map wireDeclChunk ++ [wireDeclChunk ((m ++ "_" ++ p), c.bits)]
            ++ w2.map wireDeclChunk ++ [wireDeclChunk ((m ++ "_" ++ p), c'.bits)]
            ++ w3.map wireDeclChunk)
    ∧ imLookup (VPortLoc.mk (some m) p)
        (resolve (pre ++ c :: mid ++ c' :: post)).port_to_wire
        = some ((m ++ "_" ++ p), c'.bits)
    ∧ ((resolve (pre ++ c :: mid ++ c' :: post)).port_to_wire.map Prod.fst).Nodup := by
  simp only [resolve, List.foldl_append, List.foldl_cons]
  obtain ⟨hw1, -⟩ :=
    resolveConn_touches (pre.foldl resolveConn ⟨[], [], []⟩) c m p hc
  obtain ⟨nmid, hmidw⟩ :=
    foldl_resolveConn_wires_extend mid (resolveConn (pre.foldl resolveConn ⟨[], [], []⟩) c)
  obtain ⟨hw2, hl2⟩ :=
    resolveConn_touches
      (mid.foldl resolveConn (resolveConn (pre.foldl resolveConn ⟨[], [], []⟩) c)) c' m p hc'
  obtain ⟨npost, hpostw⟩ :=
    foldl_resolveConn_wires_extend post
      (resolveConn
        (mid.foldl resolveConn (resolveConn (pre.foldl resolveConn ⟨[], [], []⟩) c)) c')
  refine ⟨⟨(pre.foldl resolveConn ⟨[], [], []⟩).wires, nmid, npost, ?_, ?_⟩, ?_, ?_⟩
  · rw [hpostw, hw2, hmidw, hw1]
  · rw [hpostw, hw2, hmidw, hw1]
    simp [List.append_assoc]
  · rw [foldl_resolveConn_lookup_other post (VPortLoc.mk (some m) p) _ hpost, hl2]
  · apply foldl_resolveConn_keys_nodup
    apply resolveConn_keys_nodup
    apply foldl_resolveConn_keys_nodup
    apply resolveConn_keys_nodup
    apply foldl_resolveConn_keys_nodup
    simp

/-- C9 witness: the duplicate-endpoint theorem instantiated at a five-element
connection list in which `D.in` is first the destination of `x → D.in`
(width 1) and later, separated by an unrelated connection, the source of
`D.in → y` (width 8); a leading and a trailing unrelated connection fill the
other segments. -/
theorem c9_duplicate_endpoint_witness :
    (∃ w1 w2 w3,
      (resolve [VConn.mk (VPortLoc.mk none ("a")) (VPortLoc.mk none ("b")) 1,
          VConn.mk (VPortLoc.mk none ("x")) (VPortLoc.mk (some ("D")) ("in")) 1,
          VConn.mk (VPortLoc.mk none ("u")) (VPortLoc.mk none ("v")) 2,
          VConn.mk (VPortLoc.mk (some ("D")) ("in")) (VPortLoc.mk none ("y")) 8,
          VConn.mk (VPortLoc.mk none ("q")) (VPortLoc.mk none ("r")) 1]).wires
        = w1 ++ [(("D_in"), 1)] ++ w2 ++ [(("D_in"), 8)] ++ w3)
    ∧ imLookup (VPortLoc.mk (some ("D")) ("in"))
        (resolve [VConn.mk (VPortLoc.mk none ("a")) (VPortLoc.mk none ("b")) 1,
          VConn.mk (VPortLoc.mk none ("x")) (VPortLoc.mk (some ("D")) ("in")) 1,
          VConn.mk (VPortLoc.mk none ("u")) (VPortLoc.mk none ("v")) 2,
          VConn.mk (VPortLoc.mk (some ("D")) ("in")) (VPortLoc.mk none ("y")) 8,
          VConn.mk (VPortLoc.mk none ("q")) (VPortLoc.mk none ("r")) 1]).port_to_wire
        = some ((("D_in")), 8) := by
  have h := c9_duplicate_endpoint
    [VConn.mk (VPortLoc.mk none ("a")) (VPortLoc.mk none ("b")) 1]
    [VConn.mk (VPortLoc.mk none ("u")) (VPortLoc.mk none ("v")) 2]
    [VConn.mk (VPortLoc.mk none ("q")) (VPortLoc.mk none ("r")) 1]
    (VConn.mk (VPortLoc.mk none ("x")) (VPortLoc.mk (some ("D")) ("in")) 1)
    (VConn.mk (VPortLoc.mk (some ("D")) ("in")) (VPortLoc.mk none ("y")) 8)
    ("D") ("in")
    (Or.inr ⟨rfl, rfl⟩) (Or.inl ⟨rfl, rfl⟩) (by decide)
  obtain ⟨⟨w1, w2, w3, hw, -⟩, hl, -⟩ := h
  exact ⟨⟨w1, w2, w3, hw⟩, hl⟩

/-- C10: when rendering an `Internal` module aborts on an unresolved port
reference, the header, port declarations, wire declarations and assignment
statements have already been written to the sink: the output is the full
prefix followed by the instance lines emitted so far, begins with the
`module NAME (` line, and is not empty. -/
theorem c10_partial_output_on_unresolved_port (name : String) (intf : List (String × VPort))
    (internals : List (String × VModule)) (conns : List VConn) (loc : VPortLoc)
    (h : (generate_module_decl (VModule.Internal name intf internals conns)).2
        = Outcome.fatal (AbortInfo.portNotFound loc)) :
    ∃ rest, (generate_module_decl (VModule.Internal name intf internals conns)).1
        = headerChunks name intf ++ intf.map portDeclChunk
          ++ (resolve conns).wires.map wireDeclChunk
          ++ (resolve conns).assigns.map assignChunk ++ rest
      ∧ (generate_module_decl (VModule.Internal name intf internals conns)).1.head?
          = some (genlnStr 0 ("module " ++ name ++ " ("))
      ∧ (generate_module_decl (VModule.Internal name intf internals conns)).1 ≠ [] := by
  rcases ho : (emitInsts (resolve conns).port_to_wire internals).2 with _ | i
  · simp [generate_module_decl, ho] at h
  · refine ⟨(emitInsts (resolve conns).port_to_wire internals).1, ?_, ?_, ?_⟩ <;>
      simp [generate_module_decl, ho, headerChunks, List.append_assoc]

/-- C10 witness: the partial-output theorem instantiated at a module whose
instance `E` has a port `a` with no connection, so rendering aborts on
`E.a` with the header and port declaration already written. -/
theorem c10_partial_output_witness :
    ∃ rest, (generate_module_decl (VModule.Internal ("top2")
          [(("x"), VPort.mk Polarity.Input 1)]
          [(("E"), VModule.External ("ext") 1 [(("a"), VPort.mk Polarity.Input 1)])]
          [])).1
        = headerChunks ("top2") [(("x"), VPort.mk Polarity.Input 1)]
          ++ [(("x"), VPort.mk Polarity.Input 1)].map portDeclChunk
          ++ (resolve []).wires.map wireDeclChunk
          ++ (resolve []).assigns.map assignChunk ++ rest
      ∧ (generate_module_decl (VModule.Internal ("top2")
          [(("x"), VPort.mk Polarity.Input 1)]
          [(("E"), VModule.External ("ext") 1 [(("a"), VPort.mk Polarity.Input 1)])]
          [])).1.head?
          = some (genlnStr 0 ("module " ++ ("top2") ++ " ("))
      ∧ (generate_module_decl (VModule.Internal ("top2")
          [(("x"), VPort.mk Polarity.Input 1)]
          [(("E"), VModule.External ("ext") 1 [(("a"), VPort.mk Polarity.Input 1)])]
          [])).1 ≠ [] :=
  c10_partial_output_on_unresolved_port ("top2")
    [(("x"), VPort.mk Polarity.Input 1)]
    [(("E"), VModule.External ("ext") 1 [(("a"), VPort.mk Polarity.Input 1)])]
    [] (VPortLoc.mk (some ("E")) ("a")) (by decide)

end VerilogIR
